import Mathlib

/-!
Verification of the time-synchronization, countdown,
configuration, cookie-persistence and retry components, shallowly embedded in
Lean 4. Python floats that only ever hold exact halves of millisecond readings
are modelled as exact rationals (`ℚ`); machine timestamps are `Int`
(milliseconds since epoch). Stateful methods are modelled by explicit state
passing. Network sampling and the wall clock are modelled as explicit inputs
(a list of per-round observations, a supplied local-clock reading).
-/

namespace HwSeckill

/-! ### Time synchronization (src/tools/time_utils.py, class TimeSync) -/

/-- One sampling round of `TimeSync.sync`, as observed from outside: the local
clock just before the request (`start_ts`), the optional `serverTimeMs` value
the server returned (none models a request failure / missing field), and the
local clock just after the response (`end_ts`). -/
structure RoundObs where
  startTs : Int
  serverResp : Option Int
  endTs : Int
deriving DecidableEq, Repr

/-- A collected sample `(server_ts, local_ts, diff)` as appended to `samples`
inside `TimeSync.sync`. -/
structure Sample where
  serverTs : ℚ
  localTs : ℚ
  diff : ℚ
deriving DecidableEq, Repr

/-- Body of one loop iteration of `TimeSync.sync`: when `server_ts` is truthy
(Python `if server_ts:` — skips both `None` and `0`), the latency correction
`latency = (end_ts - start_ts) / 2` is applied, `local_ts = start_ts + latency`
and `diff = local_ts - server_ts`. -/
def mkSample (o : RoundObs) : Option Sample :=
  match o.serverResp with
  | none => none
  | some s =>
    if s ≠ 0 then
      let latency : ℚ := ((o.endTs : ℚ) - (o.startTs : ℚ)) / 2
      let localTs : ℚ := (o.startTs : ℚ) + latency
      some ⟨(s : ℚ), localTs, localTs - (s : ℚ)⟩
    else none

/-- Sort key of `samples.sort(key=lambda x: x[2])`: compare samples by `diff`. -/
def sampleLE (a b : Sample) : Prop := a.diff ≤ b.diff

instance : DecidableRel sampleLE :=
  fun a b => inferInstanceAs (Decidable (a.diff ≤ b.diff))

instance : IsTotal Sample sampleLE := ⟨fun a b => le_total a.diff b.diff⟩

instance : IsTrans Sample sampleLE := ⟨fun _ _ _ h1 h2 => le_trans h1 h2⟩

/-- Stable sort of the samples by `diff` (Python `list.sort` is stable; so is
`List.insertionSort`). -/
def sortSamples (l : List Sample) : List Sample := List.insertionSort sampleLE l

/-- Mutable state of a `TimeSync` object: `_server_timestamp`,
`_local_timestamp`, `_time_diff` (initially `None`, `None`, `0`). -/
structure TimeSyncState where
  serverTimestamp : Option ℚ := none
  localTimestamp : Option ℚ := none
  timeDiff : ℚ := 0
deriving DecidableEq, Repr

/-- `TimeSync.sync`, with the observations of the three sampling rounds and the
local-clock reading taken in the empty-samples fallback branch passed in
explicitly. Collects samples, and if none were collected returns
`(local_ts, local_ts, 0)` leaving the state untouched; otherwise sorts the
samples by `diff` and adopts the sample at index `len(samples) // 2`,
storing its triple in the state and returning it. -/
def TimeSync.sync (st : TimeSyncState) (rounds : List RoundObs) (fallbackLocal : Int) :
    TimeSyncState × (ℚ × ℚ × ℚ) :=
  let samples := rounds.filterMap mkSample
  if samples.isEmpty then
    (st, ((fallbackLocal : ℚ), (fallbackLocal : ℚ), 0))
  else
    let m := (sortSamples samples).getD (samples.length / 2) ⟨0, 0, 0⟩
    ({ serverTimestamp := some m.serverTs, localTimestamp := some m.localTs,
       timeDiff := m.diff },
     (m.serverTs, m.localTs, m.diff))

/-- `TimeSync.get_server_time`: the current local clock reading minus the
stored `_time_diff`. -/
def TimeSync.get_server_time (st : TimeSyncState) (localNow : Int) : ℚ :=
  (localNow : ℚ) - st.timeDiff

/-! ### Countdown timer (src/tools/time_utils.py, class CountdownTimer) -/

/-- `CountdownTimer.get_remaining_ms`: `0` when no target time has been set
(Python `if not self._target_time: return 0`), otherwise
`max(target_ts - current_server_ts, 0)`. The stored target is modelled by its
millisecond timestamp; the current server time (a `TimeSync.get_server_time`
result) is the second argument. -/
def CountdownTimer.get_remaining_ms (targetTs : Option Int) (currentServerTs : ℚ) : ℚ :=
  match targetTs with
  | none => 0
  | some t => max ((t : ℚ) - currentServerTs) 0

/-- `CountdownTimer.get_remaining_parts`: successive floor division of the
remaining milliseconds with carried remainder (Python `//` and `%=` on a
possibly fractional value: `a // b = ⌊a / b⌋` and `a % b = a - b * ⌊a / b⌋`). -/
def CountdownTimer.get_remaining_parts (remainingMs : ℚ) :
    Int × Int × Int × Int × ℚ :=
  let days := ⌊remainingMs / 86400000⌋
  let r1 := remainingMs - 86400000 * (days : ℚ)
  let hours := ⌊r1 / 3600000⌋
  let r2 := r1 - 3600000 * (hours : ℚ)
  let minutes := ⌊r2 / 60000⌋
  let r3 := r2 - 60000 * (minutes : ℚ)
  let seconds := ⌊r3 / 1000⌋
  let milliseconds := r3 - 1000 * (seconds : ℚ)
  (days, hours, minutes, seconds, milliseconds)

/-- `CountdownTimer.is_time_to_start`: whether the remaining time is `≤ 0`. -/
def CountdownTimer.is_time_to_start (targetTs : Option Int) (currentServerTs : ℚ) : Bool :=
  decide (CountdownTimer.get_remaining_ms targetTs currentServerTs ≤ 0)

/-- `CountdownTimer.wait_until_ready`: the polling loop, with the successive
current-server-time readings it would observe passed as a list. Returns the
number of completed sleep iterations before the loop breaks
(`remaining <= advance_ms`), or `none` if the loop is still running when the
supplied readings run out. The tiered sleep durations are real-time effects
and are not modelled. -/
def CountdownTimer.wait_until_ready (targetTs : Option Int) (advanceMs : Int) :
    List ℚ → Option ℕ
  | [] => none
  | c :: cs =>
    if CountdownTimer.get_remaining_ms targetTs c ≤ (advanceMs : ℚ) then some 0
    else (CountdownTimer.wait_until_ready targetTs advanceMs cs).map (· + 1)

/-! ### Floor-division helper lemmas -/

/-- For a positive divisor `b`, the Python floor quotient `⌊a / b⌋` satisfies
`b * q ≤ a < b * (q + 1)`, so the carried remainder `a - b * q` lies in
`[0, b)`. -/
lemma floor_div_bounds (a b : ℚ) (hb : 0 < b) :
    b * ((⌊a / b⌋ : ℤ) : ℚ) ≤ a ∧ a < b * (((⌊a / b⌋ : ℤ) : ℚ) + 1) := by
  constructor
  · have h1 : ((⌊a / b⌋ : ℤ) : ℚ) ≤ a / b := Int.floor_le _
    calc b * ((⌊a / b⌋ : ℤ) : ℚ) ≤ b * (a / b) := by
          exact mul_le_mul_of_nonneg_left h1 hb.le
      _ = a := by field_simp
  · have h2 : a / b < ((⌊a / b⌋ : ℤ) : ℚ) + 1 := Int.lt_floor_add_one _
    calc a = b * (a / b) := by field_simp
      _ < b * (((⌊a / b⌋ : ℤ) : ℚ) + 1) := by
          exact mul_lt_mul_of_pos_left h2 hb

/-- A nonnegative dividend gives a nonnegative floor quotient. -/
lemma floor_div_nonneg (a b : ℚ) (ha : 0 ≤ a) (hb : 0 ≤ b) : 0 ≤ ⌊a / b⌋ :=
  Int.floor_nonneg.mpr (div_nonneg ha hb)

/-- A dividend below `n * b` gives a floor quotient below `n`. -/
lemma floor_div_lt (a b : ℚ) (n : ℤ) (hb : 0 < b) (h : a < (n : ℚ) * b) :
    ⌊a / b⌋ < n :=
  Int.floor_lt.mpr ((div_lt_iff₀ hb).mpr h)

/-! ### Claim theorems for the countdown timer -/

/-- C6: for every target time and clock reading, `get_remaining_ms` is
nonnegative, `is_time_to_start` holds exactly when the remaining time is `≤ 0`,
and with a target set the remaining time is `max (target - current) 0`; once
the current server time reaches or exceeds the target, `get_remaining_ms`
returns `0` and `is_time_to_start` returns `true`. -/
theorem CountdownTimer.remaining_floor_at_zero (targetTs : Option Int) (c : ℚ) :
    0 ≤ CountdownTimer.get_remaining_ms targetTs c ∧
    (CountdownTimer.is_time_to_start targetTs c = true ↔
      CountdownTimer.get_remaining_ms targetTs c ≤ 0) ∧
    ∀ t : Int, targetTs = some t →
      CountdownTimer.get_remaining_ms targetTs c = max ((t : ℚ) - c) 0 ∧
      ((t : ℚ) ≤ c →
        CountdownTimer.get_remaining_ms targetTs c = 0 ∧
        CountdownTimer.is_time_to_start targetTs c = true) := by
  refine ⟨?_, ?_, ?_⟩
  · cases targetTs with
    | none => exact le_refl 0
    | some t => exact le_max_right _ _
  · simp [CountdownTimer.is_time_to_start]
  · intro t ht
    subst ht
    refine ⟨rfl, fun hle => ?_⟩
    have hmax : max ((t : ℚ) - c) 0 = 0 := max_eq_right (by linarith)
    constructor
    · simpa [CountdownTimer.get_remaining_ms] using hmax
    · simp [CountdownTimer.is_time_to_start, CountdownTimer.get_remaining_ms, hmax]

/-- Witness for C6: with target 5 ms and current server time 7 ms the
remaining time is 0 and the start condition holds. -/
theorem CountdownTimer.remaining_floor_at_zero_witness :
    CountdownTimer.get_remaining_ms (some 5) (7 : ℚ) = 0 ∧
    CountdownTimer.is_time_to_start (some 5) (7 : ℚ) = true :=
  ((CountdownTimer.remaining_floor_at_zero (some 5) (7 : ℚ)).2.2 5 rfl).2 (by norm_num)

/-- C7: `get_remaining_parts` decomposes a nonnegative remaining duration `R`
by successive floor division with carried remainder, so that
`days * 86400000 + hours * 3600000 + minutes * 60000 + seconds * 1000 + ms = R`
with `0 ≤ hours < 24`, `0 ≤ minutes < 60`, `0 ≤ seconds < 60`,
`0 ≤ ms < 1000`; in particular `R = 90061500` yields `(1, 1, 1, 1, 500)`. -/
theorem CountdownTimer.get_remaining_parts_decomposes (R : ℚ) (hR : 0 ≤ R) :
    (((CountdownTimer.get_remaining_parts R).1 : ℚ) * 86400000 +
       ((CountdownTimer.get_remaining_parts R).2.1 : ℚ) * 3600000 +
       ((CountdownTimer.get_remaining_parts R).2.2.1 : ℚ) * 60000 +
       ((CountdownTimer.get_remaining_parts R).2.2.2.1 : ℚ) * 1000 +
       (CountdownTimer.get_remaining_parts R).2.2.2.2 = R) ∧
    0 ≤ (CountdownTimer.get_remaining_parts R).1 ∧
    0 ≤ (CountdownTimer.get_remaining_parts R).2.1 ∧
    (CountdownTimer.get_remaining_parts R).2.1 < 24 ∧
    0 ≤ (CountdownTimer.get_remaining_parts R).2.2.1 ∧
    (CountdownTimer.get_remaining_parts R).2.2.1 < 60 ∧
    0 ≤ (CountdownTimer.get_remaining_parts R).2.2.2.1 ∧
    (CountdownTimer.get_remaining_parts R).2.2.2.1 < 60 ∧
    0 ≤ (CountdownTimer.get_remaining_parts R).2.2.2.2 ∧
    (CountdownTimer.get_remaining_parts R).2.2.2.2 < 1000 ∧
    CountdownTimer.get_remaining_parts 90061500 = (1, 1, 1, 1, 500) := by
  set d := ⌊R / 86400000⌋ with hd
  set r1 := R - 86400000 * (d : ℚ) with hr1
  set hh := ⌊r1 / 3600000⌋ with hhh
  set r2 := r1 - 3600000 * (hh : ℚ) with hr2
  set mm := ⌊r2 / 60000⌋ with hmm
  set r3 := r2 - 60000 * (mm : ℚ) with hr3
  set ss := ⌊r3 / 1000⌋ with hss
  set ms := r3 - 1000 * (ss : ℚ) with hms
  have hparts : CountdownTimer.get_remaining_parts R = (d, hh, mm, ss, ms) := rfl
  have h1 := floor_div_bounds R 86400000 (by norm_num)
  rw [← hd] at h1
  have hr1n : 0 ≤ r1 := by rw [hr1]; linarith [h1.1]
  have hr1b : r1 < 86400000 := by rw [hr1]; linarith [h1.2]
  have h2 := floor_div_bounds r1 3600000 (by norm_num)
  rw [← hhh] at h2
  have hr2n : 0 ≤ r2 := by rw [hr2]; linarith [h2.1]
  have hr2b : r2 < 3600000 := by rw [hr2]; linarith [h2.2]
  have h3 := floor_div_bounds r2 60000 (by norm_num)
  rw [← hmm] at h3
  have hr3n : 0 ≤ r3 := by rw [hr3]; linarith [h3.1]
  have hr3b : r3 < 60000 := by rw [hr3]; linarith [h3.2]
  have h4 := floor_div_bounds r3 1000 (by norm_num)
  rw [← hss] at h4
  have hmsn : 0 ≤ ms := by rw [hms]; linarith [h4.1]
  have hmsb : ms < 1000 := by rw [hms]; linarith [h4.2]
  rw [hparts]
  refine ⟨by push_cast; rw [hms, hr3, hr2, hr1]; ring, ?_, ?_, ?_, ?_, ?_, ?_, ?_,
    hmsn, hmsb, by norm_num [CountdownTimer.get_remaining_parts]⟩
  · exact floor_div_nonneg R 86400000 hR (by norm_num)
  · exact floor_div_nonneg r1 3600000 hr1n (by norm_num)
  · exact floor_div_lt r1 3600000 24 (by norm_num) (by push_cast; linarith)
  · exact floor_div_nonneg r2 60000 hr2n (by norm_num)
  · exact floor_div_lt r2 60000 60 (by norm_num) (by push_cast; linarith)
  · exact floor_div_nonneg r3 1000 hr3n (by norm_num)
  · exact floor_div_lt r3 1000 60 (by norm_num) (by push_cast; linarith)

/-- Witness for C7: the decomposition statement instantiated at
`R = 90061500`. -/
theorem CountdownTimer.get_remaining_parts_decomposes_witness :
    0 ≤ (90061500 : ℚ) ∧
    CountdownTimer.get_remaining_parts 90061500 = (1, 1, 1, 1, 500) :=
  ⟨by norm_num,
   (CountdownTimer.get_remaining_parts_decomposes 90061500 (by norm_num)).2.2.2.2.2.2.2.2.2.2⟩

/-- C10: with no target time stored, `get_remaining_ms` returns 0,
`is_time_to_start` returns true, and `wait_until_ready` breaks out of its
polling loop on the very first iteration for every `advance_ms ≥ 0`,
whatever server-time readings would follow. -/
theorem CountdownTimer.no_target_already_open (advanceMs : Int) (h : 0 ≤ advanceMs)
    (c : ℚ) (cs : List ℚ) :
    CountdownTimer.get_remaining_ms none c = 0 ∧
    CountdownTimer.is_time_to_start none c = true ∧
    CountdownTimer.wait_until_ready none advanceMs (c :: cs) = some 0 := by
  refine ⟨rfl, by simp [CountdownTimer.is_time_to_start, CountdownTimer.get_remaining_ms], ?_⟩
  have hc : (0 : ℚ) ≤ (advanceMs : ℚ) := by exact_mod_cast h
  simp [CountdownTimer.wait_until_ready, CountdownTimer.get_remaining_ms, hc]

/-- Witness for C10: the default advance of 100 ms with an arbitrary clock
reading. -/
theorem CountdownTimer.no_target_already_open_witness :
    CountdownTimer.get_remaining_ms none (42 : ℚ) = 0 ∧
    CountdownTimer.is_time_to_start none (42 : ℚ) = true ∧
    CountdownTimer.wait_until_ready none 100 [(42 : ℚ)] = some 0 :=
  CountdownTimer.no_target_already_open 100 (by norm_num) 42 []

/-! ### Claim theorems for TimeSync.sync -/

/-- Three successful sampling rounds whose computed diffs are `-50`, `10` and
`1000`: each round has zero measured latency, so `diff = start_ts - server_ts`. -/
def demoRounds : List RoundObs :=
  [⟨1000, some 1050, 1000⟩, ⟨2000, some 1990, 2000⟩, ⟨3000, some 2000, 3000⟩]

/-- Three sampling rounds that all fail: two missing responses and one falsy
(`0`) server timestamp, so no sample is collected. -/
def failRounds : List RoundObs :=
  [⟨1, none, 2⟩, ⟨3, none, 4⟩, ⟨5, some 0, 6⟩]

/-- C1: when at least one sampling round succeeds, `TimeSync.sync` sorts the
collected samples by their `diff` value (there is a sorted-by-diff permutation
of the samples) and adopts the `(serverTs, localTs, diff)` triple at index
`⌊n / 2⌋` of that sorted list, storing it in the state and returning it; in
particular, for three successful samples with diffs `{-50, 10, 1000}` the
adopted triple has diff `10`, the median. -/
theorem TimeSync.sync_adopts_median (st : TimeSyncState) (rounds : List RoundObs)
    (fb : Int) (h : rounds.filterMap mkSample ≠ []) :
    (∃ sorted : List Sample,
      (rounds.filterMap mkSample).Perm sorted ∧
      sorted.Pairwise sampleLE ∧
      TimeSync.sync st rounds fb =
        (let m := sorted.getD ((rounds.filterMap mkSample).length / 2) ⟨0, 0, 0⟩
         ({ serverTimestamp := some m.serverTs, localTimestamp := some m.localTs,
            timeDiff := m.diff },
          (m.serverTs, m.localTs, m.diff)))) ∧
    (TimeSync.sync { } demoRounds 0).2 = (1990, 2000, 10) := by
  constructor
  · refine ⟨sortSamples (rounds.filterMap mkSample),
      (List.perm_insertionSort _ _).symm, List.sorted_insertionSort sampleLE _, ?_⟩
    have hne : (rounds.filterMap mkSample).isEmpty = false := by
      cases hc : rounds.filterMap mkSample with
      | nil => exact absurd hc h
      | cons a l => rfl
    simp only [TimeSync.sync, hne, Bool.false_eq_true, if_false, sortSamples]
  · have h1 : demoRounds.filterMap mkSample =
        [⟨1050, 1000, -50⟩, ⟨1990, 2000, 10⟩, ⟨2000, 3000, 1000⟩] := by
      simp only [demoRounds, List.filterMap_cons, List.filterMap_nil, mkSample]
      norm_num
    have h2 : sortSamples [⟨1050, 1000, -50⟩, ⟨1990, 2000, 10⟩, ⟨2000, 3000, 1000⟩] =
        [⟨1050, 1000, -50⟩, ⟨1990, 2000, 10⟩, ⟨2000, 3000, 1000⟩] := by
      simp only [sortSamples, List.insertionSort, List.orderedInsert, sampleLE]
      norm_num
    simp only [TimeSync.sync, h1, h2]
    norm_num

/-- Witness for C1: the three demo rounds give a nonempty sample list and the
median-selection property holds there. -/
theorem TimeSync.sync_adopts_median_witness :
    demoRounds.filterMap mkSample ≠ [] ∧
    (∃ sorted : List Sample,
      (demoRounds.filterMap mkSample).Perm sorted ∧
      sorted.Pairwise sampleLE ∧
      TimeSync.sync { } demoRounds 0 =
        (let m := sorted.getD ((demoRounds.filterMap mkSample).length / 2) ⟨0, 0, 0⟩
         ({ serverTimestamp := some m.serverTs, localTimestamp := some m.localTs,
            timeDiff := m.diff },
          (m.serverTs, m.localTs, m.diff)))) :=
  have h1 : demoRounds.filterMap mkSample =
      [⟨1050, 1000, -50⟩, ⟨1990, 2000, 10⟩, ⟨2000, 3000, 1000⟩] := by
    simp only [demoRounds, List.filterMap_cons, List.filterMap_nil, mkSample]
    norm_num
  have h : demoRounds.filterMap mkSample ≠ [] := by
    rw [h1]; exact List.cons_ne_nil _ _
  ⟨h, (TimeSync.sync_adopts_median { } demoRounds 0 h).1⟩

/-- C5: when every sampling round fails, `TimeSync.sync` returns
`(local, local, 0)` with both timestamps equal to the fallback local-clock
reading and diff `0`, and leaves the state untouched; if the stored offset was
`0`, subsequent `get_server_time` calls return the raw local clock. -/
theorem TimeSync.sync_degraded_fallback (st : TimeSyncState) (rounds : List RoundObs)
    (fb : Int) (h : rounds.filterMap mkSample = []) :
    TimeSync.sync st rounds fb = (st, ((fb : ℚ), (fb : ℚ), 0)) ∧
    (st.timeDiff = 0 → ∀ localNow : Int,
      TimeSync.get_server_time (TimeSync.sync st rounds fb).1 localNow = (localNow : ℚ)) := by
  have hsync : TimeSync.sync st rounds fb = (st, ((fb : ℚ), (fb : ℚ), 0)) := by
    simp [TimeSync.sync, h]
  refine ⟨hsync, fun hdiff localNow => ?_⟩
  rw [hsync]
  simp [TimeSync.get_server_time, hdiff]

/-- Witness for C5: three failed rounds (two network failures, one falsy `0`
response) leave a fresh `TimeSync` returning the raw local clock. -/
theorem TimeSync.sync_degraded_fallback_witness :
    TimeSync.sync { } failRounds 777 = ({ }, ((777 : ℚ), (777 : ℚ), 0)) ∧
    TimeSync.get_server_time (TimeSync.sync { } failRounds 777).1 42 = (42 : ℚ) :=
  have h : failRounds.filterMap mkSample = [] := by
    simp only [failRounds, List.filterMap_cons, List.filterMap_nil, mkSample]
    norm_num
  ⟨(TimeSync.sync_degraded_fallback { } failRounds 777 h).1,
   (TimeSync.sync_degraded_fallback { } failRounds 777 h).2 rfl 42⟩

/-! ### Configuration subsystem (src/config.py) -/

/-- The parsed INI file: an association list of sections, each an association
list of option/value pairs (the shape `ConfigParser` exposes to `get`). -/
def IniFile : Type := List (String × List (String × String))

/-- The exceptions `ConfigParser.get/getboolean/getint/getfloat` can raise:
missing section, missing option, or a value that fails type coercion. -/
inductive CfgError where
  | noSection
  | noOption
  | valueError
deriving DecidableEq, Repr

/-- `ConfigParser.get`: look the section up, then the option; raises
(`Except.error`) when either is missing. -/
def raw_get (f : IniFile) (sec opt : String) : Except CfgError String :=
  match List.lookup sec f with
  | none => .error .noSection
  | some opts =>
    match List.lookup opt opts with
    | none => .error .noOption
    | some v => .ok v

/-- Boolean coercion used by `ConfigParser.getboolean`
(`BOOLEAN_STATES`, case-insensitive). -/
def parseCfgBool (s : String) : Option Bool :=
  let t := s.toLower
  if t = "1" ∨ t = "yes" ∨ t = "true" ∨ t = "on" then some true
  else if t = "0" ∨ t = "no" ∨ t = "false" ∨ t = "off" then some false
  else none

/-- Surrounding-whitespace stripping (Python `str.strip()` as applied by
`int`/`float` to their argument). -/
def pyStrip (l : List Char) : List Char :=
  ((l.dropWhile Char.isWhitespace).reverse.dropWhile Char.isWhitespace).reverse

/-- Decimal digit-string value: `some` of the value when the list is a
nonempty string of ASCII digits, `none` otherwise. -/
def digitsToNat (l : List Char) : Option Nat :=
  if l = [] ∨ ¬ l.all Char.isDigit then none
  else some (l.foldl (fun n c => n * 10 + (c.toNat - 48)) 0)

/-- Integer coercion used by `ConfigParser.getint` (Python `int(str)`):
surrounding whitespace stripped, optional sign, decimal digits. (Digit-group
underscores accepted by Python are not modelled.) -/
def parsePyInt (s : String) : Option Int :=
  match pyStrip s.data with
  | [] => none
  | c :: rest =>
    if c = '-' then (digitsToNat rest).map (fun n => -(n : Int))
    else if c = '+' then (digitsToNat rest).map (fun n => (n : Int))
    else (digitsToNat (c :: rest)).map (fun n => (n : Int))

/-- Float coercion used by `ConfigParser.getfloat` (Python `float(str)`),
modelled as an exact rational: optional sign, integer part, optional fractional
part, at least one digit. (Exponents and `inf`/`nan` are not modelled.) -/
def parsePyFloat (s : String) : Option ℚ :=
  let t := s.trim
  let sgn : ℚ := if t.startsWith "-" then -1 else 1
  let u := if t.startsWith "-" ∨ t.startsWith "+" then t.drop 1 else t
  match u.splitOn "." with
  | [a] => (String.toNat? a).map (fun n => sgn * (n : ℚ))
  | [a, b] =>
    if a = "" ∧ b = "" then none
    else
      match (if a = "" then some 0 else String.toNat? a),
            (if b = "" then some 0 else String.toNat? b) with
      | some x, some y => some (sgn * ((x : ℚ) + (y : ℚ) / (10 : ℚ) ^ b.length))
      | _, _ => none
  | _ => none

/-- `ConfigParser.getboolean`: `get` then boolean coercion, raising
`ValueError` on malformed text. -/
def raw_getboolean (f : IniFile) (sec opt : String) : Except CfgError Bool :=
  match raw_get f sec opt with
  | .error e => .error e
  | .ok v =>
    match parseCfgBool v with
    | some b => .ok b
    | none => .error .valueError

/-- `ConfigParser.getint`: `get` then integer coercion. -/
def raw_getint (f : IniFile) (sec opt : String) : Except CfgError Int :=
  match raw_get f sec opt with
  | .error e => .error e
  | .ok v =>
    match parsePyInt v with
    | some n => .ok n
    | none => .error .valueError

/-- `ConfigParser.getfloat`: `get` then float coercion. -/
def raw_getfloat (f : IniFile) (sec opt : String) : Except CfgError ℚ :=
  match raw_get f sec opt with
  | .error e => .error e
  | .ok v =>
    match parsePyFloat v with
    | some q => .ok q
    | none => .error .valueError

/-- `Config.get`: the bare `try/except` wrapper — any parser exception yields
`default_value if default_value is not None else ""`. -/
def Config.get (f : IniFile) (sec opt : String) (defaultValue : Option String) : String :=
  match raw_get f sec opt with
  | .ok v => v
  | .error _ => defaultValue.getD ""

/-- `Config.getboolean`: fail-soft boolean getter. -/
def Config.getboolean (f : IniFile) (sec opt : String) (defaultValue : Option Bool) : Bool :=
  match raw_getboolean f sec opt with
  | .ok v => v
  | .error _ => defaultValue.getD false

/-- `Config.getint`: fail-soft integer getter. -/
def Config.getint (f : IniFile) (sec opt : String) (defaultValue : Option Int) : Int :=
  match raw_getint f sec opt with
  | .ok v => v
  | .error _ => defaultValue.getD 0

/-- `Config.getfloat`: fail-soft float getter. -/
def Config.getfloat (f : IniFile) (sec opt : String) (defaultValue : Option ℚ) : ℚ :=
  match raw_getfloat f sec opt with
  | .ok v => v
  | .error _ => defaultValue.getD 0

/-- Dataclass `UserConfig`. -/
structure UserConfig where
  name : String := ""
  password : String := ""
deriving DecidableEq, Repr

/-- Dataclass `ProductConfig`. -/
structure ProductConfig where
  name : String := ""
  id : String := ""
  color : String := ""
  version : String := ""
  payment : String := "全款购买"
  sets : String := ""
deriving DecidableEq, Repr

/-- Dataclass `BrowserConfig`. -/
structure BrowserConfig where
  type : String := "chrome"
  driver_path : String := ""
  headless : Bool := false
  user_agent : String := ""
  proxy : String := ""
deriving DecidableEq, Repr

/-- Dataclass `ProcessConfig` (`interval` is a Python float, modelled as ℚ). -/
structure ProcessConfig where
  thread : Int := 1
  interval : ℚ := 1 / 1000
  retry_times : Int := 3
  timeout : Int := 30
deriving DecidableEq, Repr

/-- Dataclass `NotifyConfig`. -/
structure NotifyConfig where
  enable_sound : Bool := true
  enable_email : Bool := false
  email_to : String := ""
  email_from : String := ""
  email_password : String := ""
deriving DecidableEq, Repr

/-- Dataclass `AppConfig`. -/
structure AppConfig where
  user : UserConfig := { }
  product : ProductConfig := { }
  browser : BrowserConfig := { }
  process : ProcessConfig := { }
  notify : NotifyConfig := { }
deriving DecidableEq, Repr

/-- Class constant `Config.SUPPORTED_BROWSERS`. -/
def SUPPORTED_BROWSERS : List String := ["chrome", "firefox", "edge", "safari"]

/-- Class constant `Config.MAX_THREADS`. -/
def MAX_THREADS : Int := 20

/-- Class constant `Config.MIN_INTERVAL` (Python `0.001`). -/
def MIN_INTERVAL : ℚ := 1 / 1000

/-- `Config._parse_config`: build the `AppConfig` from the INI file through
the fail-soft getters, with the defaults the source supplies. -/
def Config.parse_config (f : IniFile) : AppConfig :=
  { user :=
      { name := Config.get f "user" "name" (some "")
        password := Config.get f "user" "password" (some "") }
    product :=
      { name := Config.get f "product" "name" (some "")
        id := Config.get f "product" "id" (some "")
        color := Config.get f "product" "color" (some "")
        version := Config.get f "product" "version" (some "")
        payment := Config.get f "product" "payment" (some "全款购买")
        sets := Config.get f "product" "sets" (some "") }
    browser :=
      { type := Config.get f "browser" "type" (some "chrome")
        driver_path := Config.get f "browser" "driverPath" (some "")
        headless := Config.getboolean f "browser" "headless" (some false)
        user_agent := Config.get f "browser" "userAgent" (some "")
        proxy := Config.get f "browser" "proxy" (some "") }
    process :=
      { thread := Config.getint f "process" "thread" (some 1)
        interval := Config.getfloat f "process" "interval" (some (1 / 1000))
        retry_times := Config.getint f "process" "retryTimes" (some 3)
        timeout := Config.getint f "process" "timeout" (some 30) }
    notify :=
      { enable_sound := Config.getboolean f "notify" "enableSound" (some true)
        enable_email := Config.getboolean f "notify" "enableEmail" (some false)
        email_to := Config.get f "notify" "emailTo" (some "")
        email_from := Config.get f "notify" "emailFrom" (some "")
        email_password := Config.get f "notify" "emailPassword" (some "") } }

/-- `Config.validate`: returns the error list, and — since the Python method
also logs warnings and mutates `app_config.process` in place — the warning
list and the updated `AppConfig` as further components. The `if/elif/else` on
`thread` is linearized into one conditional per produced value with mutually
exclusive conditions. -/
def Config.validate (c : AppConfig) : List String × List String × AppConfig :=
  let errors : List String := []
  let warnings : List String := []
  let errors := if c.user.name = "" then errors ++ ["❌ 用户名不能为空"] else errors
  let errors := if c.user.password = "" then errors ++ ["❌ 密码不能为空"] else errors
  let errors := if c.product.id = "" then errors ++ ["❌ 商品ID不能为空"] else errors
  let warnings :=
    if c.product.color = "" then warnings ++ ["⚠️ 未配置商品颜色，将使用默认选项"] else warnings
  let warnings :=
    if c.product.version = "" then warnings ++ ["⚠️ 未配置商品版本，将使用默认选项"] else warnings
  let errors :=
    if c.browser.type ∉ SUPPORTED_BROWSERS then
      errors ++ ["❌ 不支持的浏览器类型: " ++ c.browser.type]
    else errors
  let warnings :=
    if c.browser.headless ∧ c.browser.user_agent = "" then
      warnings ++ ["⚠️ 无头模式建议配置 userAgent"]
    else warnings
  let errors := if c.process.thread < 1 then errors ++ ["❌ 线程数不能小于1"] else errors
  let warnings :=
    if 1 ≤ c.process.thread ∧ MAX_THREADS < c.process.thread then
      warnings ++ ["⚠️ 线程数超过20，已自动调整"]
    else warnings
  let newThread :=
    if 1 ≤ c.process.thread ∧ MAX_THREADS < c.process.thread then MAX_THREADS
    else c.process.thread
  let warnings :=
    if c.process.interval < MIN_INTERVAL then
      warnings ++ ["⚠️ 间隔时间过小，已调整为0.001秒"]
    else warnings
  let newInterval :=
    if c.process.interval < MIN_INTERVAL then MIN_INTERVAL else c.process.interval
  (errors, warnings,
   { c with process := { c.process with thread := newThread, interval := newInterval } })

/-! ### Claim theorems for the configuration subsystem -/

/-- A small INI file with one section, whose `thread` value is malformed. -/
def demoIni : IniFile := [("process", [("thread", "abc")])]

/-- C2: the fail-soft getters never raise — whenever the underlying
`ConfigParser` access fails (missing section, missing option) or the type
coercion fails, each getter returns the caller-supplied default value. -/
theorem Config.getters_fail_soft (f : IniFile) (sec opt : String) :
    (∀ e, raw_get f sec opt = .error e →
      (∀ d, Config.get f sec opt (some d) = d) ∧
      (∀ d, Config.getboolean f sec opt (some d) = d) ∧
      (∀ d, Config.getint f sec opt (some d) = d) ∧
      (∀ d, Config.getfloat f sec opt (some d) = d)) ∧
    (∀ v, raw_get f sec opt = .ok v →
      (parseCfgBool v = none → ∀ d, Config.getboolean f sec opt (some d) = d) ∧
      (parsePyInt v = none → ∀ d, Config.getint f sec opt (some d) = d) ∧
      (parsePyFloat v = none → ∀ d, Config.getfloat f sec opt (some d) = d)) := by
  constructor
  · intro e he
    refine ⟨fun d => ?_, fun d => ?_, fun d => ?_, fun d => ?_⟩
    · simp [Config.get, he]
    · simp [Config.getboolean, raw_getboolean, he]
    · simp [Config.getint, raw_getint, he]
    · simp [Config.getfloat, raw_getfloat, he]
  · intro v hv
    refine ⟨fun hp d => ?_, fun hp d => ?_, fun hp d => ?_⟩
    · simp [Config.getboolean, raw_getboolean, hv, hp]
    · simp [Config.getint, raw_getint, hv, hp]
    · simp [Config.getfloat, raw_getfloat, hv, hp]

/-- Witness for C2: a missing section falls back to `"x"` and the malformed
`thread=abc` falls back to the supplied `7`. -/
theorem Config.getters_fail_soft_witness :
    Config.get demoIni "browser" "missingKey" (some "x") = "x" ∧
    Config.getint demoIni "process" "thread" (some 7) = 7 :=
  ⟨((Config.getters_fail_soft demoIni "browser" "missingKey").1 .noSection rfl).1 "x",
   ((Config.getters_fail_soft demoIni "process" "thread").2 "abc" rfl).2.1 (by decide) 7⟩

/-- The fixed thread-count error string can never equal the browser-type error
string, whatever the configured browser type: their lengths differ. -/
lemma threadErr_ne_browserErr (t : String) :
    "❌ 线程数不能小于1" ≠ "❌ 不支持的浏览器类型: " ++ t := by
  intro heq
  have hlen := congrArg String.length heq
  rw [String.length_append] at hlen
  have h1 : "❌ 线程数不能小于1".length = 10 := by decide
  have h2 : "❌ 不支持的浏览器类型: ".length = 13 := by decide
  omega

/-- C3: `Config.validate` treats `process.thread` asymmetrically — a thread
count above 20 is clamped to exactly 20 with a warning and no thread error,
a thread count below 1 gets a validation error and is not clamped, and an
interval below 0.001 is raised to exactly 0.001 with a warning and no change
to the error list. -/
theorem Config.validate_thread_interval (c : AppConfig) :
    (20 < c.process.thread →
      (Config.validate c).2.2.process.thread = 20 ∧
      "⚠️ 线程数超过20，已自动调整" ∈ (Config.validate c).2.1 ∧
      "❌ 线程数不能小于1" ∉ (Config.validate c).1) ∧
    (c.process.thread < 1 →
      "❌ 线程数不能小于1" ∈ (Config.validate c).1 ∧
      (Config.validate c).2.2.process.thread = c.process.thread) ∧
    (c.process.interval < 1 / 1000 →
      (Config.validate c).2.2.process.interval = 1 / 1000 ∧
      "⚠️ 间隔时间过小，已调整为0.001秒" ∈ (Config.validate c).2.1 ∧
      (Config.validate c).1 =
        (Config.validate
          { c with process := { c.process with interval := 1 / 1000 } }).1) := by
  refine ⟨fun h => ?_, fun h => ?_, fun h => ?_⟩
  · have h1 : ¬ c.process.thread < 1 := by omega
    have h2 : 1 ≤ c.process.thread ∧ MAX_THREADS < c.process.thread :=
      ⟨by omega, by simpa [MAX_THREADS] using h⟩
    refine ⟨?_, ?_, ?_⟩
    · simp [Config.validate, h1, h2, MAX_THREADS]
      omega
    · simp only [Config.validate, if_pos h2]
      split_ifs <;> simp
    · simp only [Config.validate, if_neg h1]
      split_ifs <;> simp [threadErr_ne_browserErr]
  · have h2 : ¬ (1 ≤ c.process.thread ∧ MAX_THREADS < c.process.thread) := by
      simp only [MAX_THREADS]; omega
    refine ⟨?_, ?_⟩
    · simp only [Config.validate, if_pos h]
      split_ifs <;> simp
    · simp [Config.validate, h, h2]
  · have h' : c.process.interval < MIN_INTERVAL := by simpa [MIN_INTERVAL] using h
    refine ⟨?_, ?_, ?_⟩
    · simp [Config.validate, h', MIN_INTERVAL]
      intro h''
      exfalso
      rw [MIN_INTERVAL] at h'
      norm_num at h' h''
      linarith
    · simp only [Config.validate, if_pos h']
      split_ifs <;> simp
    · simp [Config.validate]

/-- Config whose thread count exceeds the maximum. -/
def cThread50 : AppConfig := { process := { thread := 50 } }

/-- Config whose thread count is below the minimum. -/
def cThread0 : AppConfig := { process := { thread := 0 } }

/-- Config whose polling interval is below the minimum. -/
def cInterval : AppConfig := { process := { interval := 1 / 10000 } }

/-- Witness for C3: the three branches at thread 50, thread 0 and interval
0.0001. -/
theorem Config.validate_thread_interval_witness :
    ((Config.validate cThread50).2.2.process.thread = 20 ∧
      "⚠️ 线程数超过20，已自动调整" ∈ (Config.validate cThread50).2.1 ∧
      "❌ 线程数不能小于1" ∉ (Config.validate cThread50).1) ∧
    ("❌ 线程数不能小于1" ∈ (Config.validate cThread0).1 ∧
      (Config.validate cThread0).2.2.process.thread = cThread0.process.thread) ∧
    ((Config.validate cInterval).2.2.process.interval = 1 / 1000 ∧
      "⚠️ 间隔时间过小，已调整为0.001秒" ∈ (Config.validate cInterval).2.1 ∧
      (Config.validate cInterval).1 =
        (Config.validate
          { cInterval with process :=
              { cInterval.process with interval := 1 / 1000 } }).1) :=
  ⟨(Config.validate_thread_interval cThread50).1 (by decide),
   (Config.validate_thread_interval cThread0).2.1 (by decide),
   (Config.validate_thread_interval cInterval).2.2 (by norm_num [cInterval])⟩

/-- C4: `Config.validate` reports an error for an empty user name, an empty
password, an empty product id, and an unsupported browser type — each
independently — and reports no error at all for a fully populated config with
a supported browser type, a thread count in `[1, 20]` and an interval
`≥ 0.001`. -/
theorem Config.validate_required_fields (c : AppConfig) :
    (c.user.name = "" → "❌ 用户名不能为空" ∈ (Config.validate c).1) ∧
    (c.user.password = "" → "❌ 密码不能为空" ∈ (Config.validate c).1) ∧
    (c.product.id = "" → "❌ 商品ID不能为空" ∈ (Config.validate c).1) ∧
    (c.browser.type ∉ SUPPORTED_BROWSERS →
      ("❌ 不支持的浏览器类型: " ++ c.browser.type) ∈ (Config.validate c).1) ∧
    (c.user.name ≠ "" → c.user.password ≠ "" → c.product.id ≠ "" →
      c.browser.type ∈ SUPPORTED_BROWSERS → 1 ≤ c.process.thread →
      c.process.thread ≤ 20 → 1 / 1000 ≤ c.process.interval →
      (Config.validate c).1 = []) := by
  refine ⟨fun h => ?_, fun h => ?_, fun h => ?_, fun h => ?_, ?_⟩
  · simp only [Config.validate, if_pos h]
    split_ifs <;> simp
  · simp only [Config.validate, if_pos h]
    split_ifs <;> simp
  · simp only [Config.validate, if_pos h]
    split_ifs <;> simp
  · simp only [Config.validate, if_pos h]
    split_ifs <;> simp
  · intro h1 h2 h3 h4 h5 h6 h7
    have hth : ¬ c.process.thread < 1 := by omega
    simp [Config.validate, h1, h2, h3, h4, hth]

/-- A minimal fully populated config: name, password, product id, the default
supported browser type, and in-range process settings. -/
def goodConfig : AppConfig :=
  { user := { name := "u", password := "p" }, product := { id := "10086989076790" } }

/-- Witness for C4: each required-field branch fires at a concrete config, and
the minimal populated config validates without errors. -/
theorem Config.validate_required_fields_witness :
    "❌ 用户名不能为空" ∈ (Config.validate { user := { password := "p" } }).1 ∧
    "❌ 密码不能为空" ∈ (Config.validate { user := { name := "u" } }).1 ∧
    "❌ 商品ID不能为空" ∈ (Config.validate { user := { name := "u", password := "p" } }).1 ∧
    ("❌ 不支持的浏览器类型: " ++ "opera") ∈
      (Config.validate { browser := { type := "opera" } }).1 ∧
    (Config.validate goodConfig).1 = [] :=
  ⟨(Config.validate_required_fields { user := { password := "p" } }).1 rfl,
   (Config.validate_required_fields { user := { name := "u" } }).2.1 rfl,
   (Config.validate_required_fields { user := { name := "u", password := "p" } }).2.2.1 rfl,
   (Config.validate_required_fields { browser := { type := "opera" } }).2.2.2.1 (by decide),
   (Config.validate_required_fields goodConfig).2.2.2.2 (by decide) (by decide) (by decide)
     (by decide) (by decide) (by decide) (by norm_num [goodConfig])⟩

/-! ### Cookie persistence (src/tools/utils.py, class CookieManager)

The cookie file is modelled as `Option CookieData`: `none` when the file does
not exist, `some data` when it holds a serialized cookie list. The standard
JSON codec (`json.dump`/`json.load`) is external library code and is modelled
as a faithful store; the logic of the repository itself — the existence checks, the
`None` result for a missing file, and the return values of `write`/`delete` —
is translated directly. -/

/-- A cookie record: an attribute map as emitted by the browser session. -/
def Cookie : Type := List (String × String)

/-- `CookieManager.write`: serialize the list to the cookie file; returns the
new file state and the success flag. -/
def CookieManager.write (_fs : Option (List Cookie)) (cookies : List Cookie) :
    Option (List Cookie) × Bool :=
  (some cookies, true)

/-- `CookieManager.read`: `None` when the file does not exist
(`os.path.exists` check), otherwise the parsed list. -/
def CookieManager.read (fs : Option (List Cookie)) : Option (List Cookie) :=
  match fs with
  | none => none
  | some data => some data

/-- `CookieManager.delete`: remove the file if it exists; returns `true`
whether or not the file was present. -/
def CookieManager.delete (fs : Option (List Cookie)) : Option (List Cookie) × Bool :=
  match fs with
  | none => (none, true)
  | some _ => (none, true)

/-- C8: the cookie store round-trips — `write` then `read` returns the
written list, `delete` then `read` returns an absent value, `read` on a
missing file returns an absent value (without raising), and `delete` returns
`true` even when the file was already absent. -/
theorem CookieManager.round_trip (fs : Option (List Cookie)) (cookies : List Cookie) :
    CookieManager.read (CookieManager.write fs cookies).1 = some cookies ∧
    (CookieManager.write fs cookies).2 = true ∧
    CookieManager.read (CookieManager.delete fs).1 = none ∧
    CookieManager.read none = none ∧
    (CookieManager.delete none).2 = true := by
  refine ⟨rfl, rfl, ?_, rfl, rfl⟩
  cases fs <;> rfl

/-! ### Retry decoration (src/tools/utils.py, def retry) -/

/-- The behavior of the wrapped callable is a function from the 1-based attempt
index to `Except E A`: `.ok` models a normal return, `.error` models a raised
exception (of a type inside the filter set of the decorator). -/
def Attempts (E A : Type) : Type := ℕ → Except E A

variable {E A : Type}

/-- Loop of the retry wrapper: `attempt` is the current 1-based index, the
second argument the number of attempts left, the third the `last_exception`
variable. When attempts are exhausted the loop falls through to
`raise last_exception` (`.error none` models the degenerate
`raise None` of `max_attempts = 0`). -/
def retryAux (f : Attempts E A) : ℕ → ℕ → Option E → Except (Option E) A
  | _, 0, last => .error last
  | attempt, n + 1, _ =>
    match f attempt with
    | .ok a => .ok a
    | .error e => retryAux f (attempt + 1) n (some e)

/-- The retry decorator applied to `f` with `max_attempts`: attempts start at
index 1 with no recorded exception. -/
def retry (maxAttempts : ℕ) (f : Attempts E A) : Except (Option E) A :=
  retryAux f 1 maxAttempts none

/-- Number of invocations of the wrapped function that the retry loop
performs. -/
def retryCallsAux (f : Attempts E A) : ℕ → ℕ → ℕ
  | _, 0 => 0
  | attempt, n + 1 =>
    match f attempt with
    | .ok _ => 1
    | .error _ => 1 + retryCallsAux f (attempt + 1) n

/-- Number of calls made by `retry maxAttempts f`. -/
def retryCalls (maxAttempts : ℕ) (f : Attempts E A) : ℕ :=
  retryCallsAux f 1 maxAttempts

/-- Number of `time.sleep(delay)` pauses the retry loop performs: one after
each failed attempt except the final one (`if attempt < max_attempts`). -/
def retrySleepsAux (f : Attempts E A) : ℕ → ℕ → ℕ
  | _, 0 => 0
  | attempt, n + 1 =>
    match f attempt with
    | .ok _ => 0
    | .error _ => (if n = 0 then 0 else 1) + retrySleepsAux f (attempt + 1) n

/-- Number of sleeps performed by `retry maxAttempts f`. -/
def retrySleeps (maxAttempts : ℕ) (f : Attempts E A) : ℕ :=
  retrySleepsAux f 1 maxAttempts

/-- Whether an `Except` result models a raised exception. -/
def isErr : Except E A → Bool
  | .error _ => true
  | .ok _ => false

/-- Unfolding: a successful attempt ends the retry loop. -/
lemma retryAux_succ_ok {f : Attempts E A} {attempt : ℕ} {a : A}
    (hf : f attempt = .ok a) (n : ℕ) (last : Option E) :
    retryAux f attempt (n + 1) last = .ok a := by
  have h0 : retryAux f attempt (n + 1) last =
      match f attempt with
      | .ok a => .ok a
      | .error e => retryAux f (attempt + 1) n (some e) := rfl
  rw [h0, hf]

/-- Unfolding: a failed attempt recurses with the recorded exception. -/
lemma retryAux_succ_err {f : Attempts E A} {attempt : ℕ} {e : E}
    (hf : f attempt = .error e) (n : ℕ) (last : Option E) :
    retryAux f attempt (n + 1) last = retryAux f (attempt + 1) n (some e) := by
  have h0 : retryAux f attempt (n + 1) last =
      match f attempt with
      | .ok a => .ok a
      | .error e => retryAux f (attempt + 1) n (some e) := rfl
  rw [h0, hf]

/-- Unfolding: call count of a loop ending in success. -/
lemma retryCallsAux_succ_ok {f : Attempts E A} {attempt : ℕ} {a : A}
    (hf : f attempt = .ok a) (n : ℕ) :
    retryCallsAux f attempt (n + 1) = 1 := by
  have h0 : retryCallsAux f attempt (n + 1) =
      match f attempt with
      | .ok _ => 1
      | .error _ => 1 + retryCallsAux f (attempt + 1) n := rfl
  rw [h0, hf]

/-- Unfolding: call count of a loop whose first attempt fails. -/
lemma retryCallsAux_succ_err {f : Attempts E A} {attempt : ℕ} {e : E}
    (hf : f attempt = .error e) (n : ℕ) :
    retryCallsAux f attempt (n + 1) = 1 + retryCallsAux f (attempt + 1) n := by
  have h0 : retryCallsAux f attempt (n + 1) =
      match f attempt with
      | .ok _ => 1
      | .error _ => 1 + retryCallsAux f (attempt + 1) n := rfl
  rw [h0, hf]

/-- Unfolding: sleep count of a loop whose first attempt fails. -/
lemma retrySleepsAux_succ_err {f : Attempts E A} {attempt : ℕ} {e : E}
    (hf : f attempt = .error e) (n : ℕ) :
    retrySleepsAux f attempt (n + 1) =
      (if n = 0 then 0 else 1) + retrySleepsAux f (attempt + 1) n := by
  have h0 : retrySleepsAux f attempt (n + 1) =
      match f attempt with
      | .ok _ => 0
      | .error _ => (if n = 0 then 0 else 1) + retrySleepsAux f (attempt + 1) n := rfl
  rw [h0, hf]

/-- The retry loop never calls the wrapped function more often than it has
attempts left. -/
lemma retryCallsAux_le (f : Attempts E A) :
    ∀ (n attempt : ℕ), retryCallsAux f attempt n ≤ n := by
  intro n
  induction n with
  | zero => intro attempt; simp [retryCallsAux]
  | succ n ih =>
    intro attempt
    cases hf : f attempt with
    | ok a => rw [retryCallsAux_succ_ok hf]; omega
    | error e =>
      rw [retryCallsAux_succ_err hf]
      have := ih (attempt + 1)
      omega

/-- If every attempt before index `k` fails and attempt `k` succeeds within
the remaining budget, the retry loop returns the success value after exactly
`k - attempt + 1` calls. -/
lemma retryAux_ok (f : Attempts E A) (a : A) :
    ∀ (n attempt k : ℕ) (last : Option E), attempt ≤ k → k < attempt + n →
      f k = .ok a → (∀ i, attempt ≤ i → i < k → isErr (f i) = true) →
      retryAux f attempt n last = .ok a ∧
      retryCallsAux f attempt n = k - attempt + 1 := by
  intro n
  induction n with
  | zero => intro attempt k last h1 h2 _ _; omega
  | succ n ih =>
    intro attempt k last h1 h2 hok hfail
    by_cases hak : attempt = k
    · subst hak
      refine ⟨retryAux_succ_ok hok n last, ?_⟩
      rw [retryCallsAux_succ_ok hok n]
      omega
    · have hlt : attempt < k := lt_of_le_of_ne h1 hak
      have hf : isErr (f attempt) = true := hfail attempt le_rfl hlt
      obtain ⟨e, he⟩ : ∃ e, f attempt = .error e := by
        cases hfe : f attempt with
        | ok b => rw [hfe] at hf; simp [isErr] at hf
        | error e => exact ⟨e, rfl⟩
      have step := ih (attempt + 1) k (some e) hlt (by omega) hok
        (fun i hi1 hi2 => hfail i (by omega) hi2)
      refine ⟨?_, ?_⟩
      · rw [retryAux_succ_err he n last]
        exact step.1
      · rw [retryCallsAux_succ_err he n]
        omega

/-- If every attempt from `attempt` onward fails, the retry loop exhausts its
remaining budget `n ≥ 1`, re-raises the exception of the final attempt
(index `attempt + n - 1`) after exactly `n` calls, and sleeps `n - 1` times. -/
lemma retryAux_allfail (f : Attempts E A) :
    ∀ (n attempt : ℕ) (last : Option E), 1 ≤ n →
      (∀ i, attempt ≤ i → isErr (f i) = true) →
      ∃ e, f (attempt + n - 1) = .error e ∧
        retryAux f attempt n last = .error (some e) ∧
        retryCallsAux f attempt n = n ∧
        retrySleepsAux f attempt n = n - 1 := by
  intro n
  induction n with
  | zero => intro attempt last h1 _; omega
  | succ n ih =>
    intro attempt last _ hfail
    have hf : isErr (f attempt) = true := hfail attempt le_rfl
    obtain ⟨e, he⟩ : ∃ e, f attempt = .error e := by
      cases hfe : f attempt with
      | ok b => rw [hfe] at hf; simp [isErr] at hf
      | error e => exact ⟨e, rfl⟩
    cases n with
    | zero =>
      refine ⟨e, by simpa using he, ?_, ?_, ?_⟩
      · rw [retryAux_succ_err he 0 last]
        rfl
      · rw [retryCallsAux_succ_err he 0]
        rfl
      · rw [retrySleepsAux_succ_err he 0]
        rfl
    | succ m =>
      obtain ⟨e', he', hrun, hcalls, hsleeps⟩ :=
        ih (attempt + 1) (some e) (by omega) (fun i hi => hfail i (by omega))
      refine ⟨e', by rw [← he']; congr 1; omega, ?_, ?_, ?_⟩
      · rw [retryAux_succ_err he (m + 1) last]
        exact hrun
      · rw [retryCallsAux_succ_err he (m + 1), hcalls]
        omega
      · rw [retrySleepsAux_succ_err he (m + 1), hsleeps]
        simp
        omega

/-- C9: the retry decorator with `max_attempts = N` invokes the wrapped
function at most `N` times; if the first `k - 1` attempts fail and attempt
`k ≤ N` succeeds, it returns that success value after exactly `k` calls; and
if every attempt fails, it re-raises the exception of the final attempt after
exactly `N` calls, with the fixed delay slept between consecutive attempts
(`N - 1` sleeps). -/
theorem retry_decorator_semantics (N : ℕ) (f : Attempts E A) :
    retryCalls N f ≤ N ∧
    (∀ k a, 1 ≤ k → k ≤ N → f k = .ok a →
      (∀ i, 1 ≤ i → i < k → isErr (f i) = true) →
      retry N f = .ok a ∧ retryCalls N f = k) ∧
    (1 ≤ N → (∀ i, 1 ≤ i → isErr (f i) = true) →
      ∃ e, f N = .error e ∧ retry N f = .error (some e) ∧
        retryCalls N f = N ∧ retrySleeps N f = N - 1) := by
  refine ⟨retryCallsAux_le f N 1, ?_, ?_⟩
  · intro k a hk1 hkN hok hfail
    have := retryAux_ok f a N 1 k none hk1 (by omega) hok hfail
    exact ⟨this.1, by have := this.2; unfold retryCalls; omega⟩
  · intro hN hfail
    obtain ⟨e, he, hrun, hcalls, hsleeps⟩ :=
      retryAux_allfail f N 1 none hN (fun i hi => hfail i hi)
    refine ⟨e, ?_, hrun, hcalls, hsleeps⟩
    rw [← he]
    congr 1
    omega

/-- A wrapped function that raises on its first two calls and succeeds on the
third. -/
def flaky : Attempts ℕ String := fun i => if i ≤ 2 then .error i else .ok "done"

/-- A wrapped function that raises on every call. -/
def alwaysFail : Attempts ℕ String := fun _ => .error 7

/-- Witness for C9: `flaky` under `retry(max_attempts=3)` returns the success
value with exactly 3 calls; `alwaysFail` under `retry(max_attempts=2)`
re-raises the final exception after exactly 2 calls and 1 sleep. -/
theorem retry_decorator_semantics_witness :
    (retry 3 flaky = .ok "done" ∧ retryCalls 3 flaky = 3) ∧
    (∃ e, alwaysFail 2 = .error e ∧ retry 2 alwaysFail = .error (some e) ∧
      retryCalls 2 alwaysFail = 2 ∧ retrySleeps 2 alwaysFail = 2 - 1) :=
  ⟨(retry_decorator_semantics 3 flaky).2.1 3 "done" (by omega) (by omega) rfl
      (fun i h1 h2 => by interval_cases i <;> rfl),
   (retry_decorator_semantics 2 alwaysFail).2.2 (by omega) (fun i _ => rfl)⟩

end HwSeckill
